import Mathlib

/-!
Shallow embedding of the client-side todo store implemented in
`src/components/TodoList.tsx` (the variant with label support).

Modelling conventions:
* Remote (Supabase) calls are reified as elements of `RemoteCall`; every
  stateful operation returns the successor state together with the list of
  remote calls it issued, the `alert` messages shown to the user, and the
  `console.error` log lines, in program order.
* The outcome of each remote call is supplied by an explicit environment
  argument (`Except` for error-vs-data responses), mirroring the
  destructuring of Supabase responses into `data` and `error`.
* JavaScript string helpers are modelled at the character-list level:
  `String.prototype.trim` as `jsTrim`, `String.prototype.toLowerCase` as
  `jsToLower`, and the `localeCompare`-based ascending sort as a merge sort
  over code-point order on names.
* JavaScript truthiness of `editingId : number | null` (falsy for `null`
  and `0`) is modelled by `idTruthy`; truthiness of strings (falsy for the
  empty string) is modelled by comparison with `""`.
-/

namespace TodoApp

/-- JS `String.prototype.trim`: strip leading and trailing whitespace. -/
def jsTrim (s : String) : String :=
  ⟨((s.data.dropWhile Char.isWhitespace).reverse.dropWhile Char.isWhitespace).reverse⟩

/-- JS `String.prototype.toLowerCase`, restricted to per-character lowering. -/
def jsToLower (s : String) : String :=
  ⟨s.data.map Char.toLower⟩

/-- Row of the `profiles` table (`type Profile`). -/
structure Profile where
  id : String
  name : String
deriving DecidableEq, Repr

/-- Row of the `labels` table (`type Label`). -/
structure Label where
  id : String
  name : String
  created_at : String
deriving DecidableEq, Repr

/-- A joined label as embedded in a todo row: `labels(id, name)`. -/
structure LabelRef where
  id : String
  name : String
deriving DecidableEq, Repr

/-- Client-side `Todo` object (`type Todo`); the two optional fields hold
joined data when present. -/
structure Todo where
  id : Int
  title : String
  description : Option String
  due_date : Option String
  completed : Bool
  assignee_id : String
  assignee : Option Profile
  labels : Option (List LabelRef)
deriving DecidableEq, Repr

/-- One element of the nested `labels:todo_labels(label_id, labels(id, name))`
embedding returned by the todos select. -/
structure TodoLabelJoinRow where
  label_id : String
  labels : Option LabelRef
deriving DecidableEq, Repr

/-- A raw todo row as returned by `fetchTodos`, before flattening labels. -/
structure RawTodo where
  id : Int
  title : String
  description : Option String
  due_date : Option String
  completed : Bool
  assignee_id : String
  assignee : Option Profile
  labels : Option (List TodoLabelJoinRow)
deriving DecidableEq, Repr

/-- The React component state of `TodoList` (presentation-only dropdown
open/closed booleans omitted). -/
structure TodoListState where
  todos : List Todo
  users : List Profile
  labels : List Label
  title : String
  description : String
  dueDate : String
  assigneeId : String
  selectedLabelIds : List String
  newLabelName : String
  editingId : Option Int
  filterUserId : String
  filterLabelIds : List String
deriving DecidableEq, Repr

/-- JavaScript truthiness of a `number | null` identifier: falsy for `null`
and for `0`. -/
def idTruthy : Option Int → Bool
  | none => false
  | some n => n != 0

/-- Reified remote (Supabase) calls, with the data each call sends. -/
inductive RemoteCall
  | selectProfiles
  | selectLabels
  | selectTodosJoined
  | selectTodoLabels (todoIdEq : Int)
  | insertTodoRow (title description due_date assignee_id : String)
  | updateTodoRow (title description due_date assignee_id : String) (idEq : Int)
  | updateCompleted (completed : Bool) (idEq : Int)
  | deleteTodoRow (idEq : Int)
  | insertLabelRow (name : String)
  | insertTodoLabels (rows : List (Int × String))
  | deleteTodoLabels (todoIdEq : Int)
deriving DecidableEq, Repr

/-- Result of one store operation: return value, successor state, remote
calls issued (in order), user-visible `alert` messages, `console.error`
log lines. -/
structure OpResult (α : Type) where
  ret : α
  state : TodoListState
  calls : List RemoteCall
  alerts : List String
  logs : List String
deriving DecidableEq, Repr

/-- Helper `assignedIds`: assignees of every todo other than the edit target
(`todos.filter((t) => !editingId || t.id !== editingId).map((t) => t.assignee_id)`). -/
def assignedIds (s : TodoListState) : List String :=
  (s.todos.filter (fun t => !(idTruthy s.editingId) || s.editingId != some t.id)).map
    (fun t => t.assignee_id)

/-- Derived view `availableUsers`: users not occurring in `assignedIds`, plus the user
currently selected in the form
(`users.filter((u) => !assignedIds.includes(u.id) || u.id === assigneeId)`). -/
def availableUsers (s : TodoListState) : List Profile :=
  s.users.filter (fun u => !((assignedIds s).contains u.id) || u.id == s.assigneeId)

/-- Modelled from the spec (not from the code), for comparison with
`availableUsers`: the spec describes `computeAvailableAssignees` as
returning exactly the "Users not currently assigned to any Todo other than
the one being edited". -/
def specAvailableAssignees (s : TodoListState) : List Profile :=
  s.users.filter (fun u =>
    !(s.todos.any (fun t =>
      (!(idTruthy s.editingId) || s.editingId != some t.id) && t.assignee_id == u.id)))

/-- Derived view `filteredTodos`: assignee filter (unset when the empty string) AND
label filters, where every selected filter label must occur among the
todo's joined labels. -/
def filteredTodos (s : TodoListState) : List Todo :=
  s.todos.filter (fun todo =>
    (s.filterUserId == "" || todo.assignee_id == s.filterUserId)
    && (s.filterLabelIds.isEmpty
        || s.filterLabelIds.all (fun filterLabelId =>
            (todo.labels.getD []).any (fun label => label.id == filterLabelId))))

/-- Operation `resetForm`: clear every form field and leave edit mode. -/
def resetForm (s : TodoListState) : TodoListState :=
  { s with
    title := ""
    description := ""
    dueDate := ""
    assigneeId := ""
    selectedLabelIds := []
    newLabelName := ""
    editingId := none }

/-- The flattening applied to each raw todo row by `fetchTodos`:
`labels: todo.labels?.map((tl) => tl.labels).filter(Boolean) || []`. -/
def transformTodo (r : RawTodo) : Todo :=
  { id := r.id
    title := r.title
    description := r.description
    due_date := r.due_date
    completed := r.completed
    assignee_id := r.assignee_id
    assignee := r.assignee
    labels := some ((r.labels.getD []).filterMap (fun tl => tl.labels)) }

/-- Operation `fetchTodos`: select todos with assignee and label embeddings; on error
log and keep state; on success replace the whole local todo list with the
flattened response (`data?.map(...) || []`). -/
def fetchTodos (s : TodoListState) (env : Except String (Option (List RawTodo))) :
    OpResult Unit :=
  match env with
  | .error msg =>
    { ret := (), state := s, calls := [RemoteCall.selectTodosJoined], alerts := [],
      logs := ["Fetch error: " ++ msg] }
  | .ok data =>
    { ret := ()
      state := { s with todos := (data.map (fun rows => rows.map transformTodo)).getD [] }
      calls := [RemoteCall.selectTodosJoined]
      alerts := []
      logs := [] }

/-- Operation `createNewLabel(labelName)`: trim; bail out on an empty name; reuse a
case-insensitively matching cached label; otherwise insert remotely and
re-sort the cache by name ascending. `env` is the response to the insert
(`.single()` returns one `Label` row). -/
def createNewLabel (s : TodoListState) (labelName : String)
    (env : Except String Label) : OpResult (Option String) :=
  let trimmedName := jsTrim labelName
  if trimmedName = "" then
    { ret := none, state := s, calls := [], alerts := [], logs := [] }
  else
    match s.labels.find? (fun label => jsToLower label.name == jsToLower trimmedName) with
    | some existingLabel =>
      { ret := some existingLabel.id, state := s, calls := [], alerts := [], logs := [] }
    | none =>
      match env with
      | .error msg =>
        { ret := none, state := s, calls := [RemoteCall.insertLabelRow trimmedName],
          alerts := ["Failed to create new label: " ++ msg],
          logs := ["Error creating label: " ++ msg] }
      | .ok data =>
        { ret := some data.id
          state := { s with
            labels := (s.labels ++ [data]).mergeSort (fun a b => a.name ≤ b.name) }
          calls := [RemoteCall.insertLabelRow trimmedName]
          alerts := []
          logs := [] }

/-- Environment for one `saveTodo` run: outcomes of the todo-row update
(edit mode), the todo-row insert (create mode), the join-row insert, and
the final `fetchTodos` refresh.  The join-row delete's outcome is carried
too, although the code discards it. -/
structure SaveEnv where
  updateTodoRes : Except String Unit
  insertTodoRes : Except String (Option (List Todo))
  joinDeleteRes : Except String Unit
  joinInsertRes : Except String Unit
  fetchRes : Except String (Option (List RawTodo))
deriving Repr

/-- Edit branch of `saveTodo` (`if (editingId)` taken, with `eid` the edit
target): update the todo row, abort with an alert on failure; otherwise
delete all join rows for `eid`, insert fresh join rows for the selected
labels (join failures only logged), then reset the form and refresh. -/
def saveTodoUpdate (s : TodoListState) (env : SaveEnv) (eid : Int) : OpResult Unit :=
  let c1 := RemoteCall.updateTodoRow s.title s.description s.dueDate s.assigneeId eid
  match env.updateTodoRes with
  | .error msg =>
    { ret := (), state := s, calls := [c1], alerts := [msg],
      logs := ["Update error: " ++ msg] }
  | .ok _ =>
    let c2 := RemoteCall.deleteTodoLabels eid
    let joined :=
      if s.selectedLabelIds.length > 0 then
        let todoLabelsData := s.selectedLabelIds.map (fun labelId => (eid, labelId))
        match env.joinInsertRes with
        | .error msg =>
          ([RemoteCall.insertTodoLabels todoLabelsData], ["Labels update error: " ++ msg])
        | .ok _ => ([RemoteCall.insertTodoLabels todoLabelsData], ([] : List String))
      else ([], [])
    let refreshed := fetchTodos (resetForm s) env.fetchRes
    { ret := ()
      state := refreshed.state
      calls := [c1, c2] ++ joined.1 ++ refreshed.calls
      alerts := refreshed.alerts
      logs := joined.2 ++ refreshed.logs }

/-- Create branch of `saveTodo` (`if (editingId)` not taken): insert the
todo row, abort with an alert on failure; otherwise insert join rows for
the selected labels keyed by the store-assigned identifier (failures only
logged), then reset the form and refresh. -/
def saveTodoCreate (s : TodoListState) (env : SaveEnv) : OpResult Unit :=
  let c1 := RemoteCall.insertTodoRow s.title s.description s.dueDate s.assigneeId
  match env.insertTodoRes with
  | .error msg =>
    { ret := (), state := s, calls := [c1], alerts := [msg],
      logs := ["Insert error: " ++ msg] }
  | .ok todoData =>
    let joined :=
      match todoData with
      | some (t0 :: _) =>
        if s.selectedLabelIds.length > 0 then
          let todoLabelsData := s.selectedLabelIds.map (fun labelId => (t0.id, labelId))
          match env.joinInsertRes with
          | .error msg =>
            ([RemoteCall.insertTodoLabels todoLabelsData], ["Labels insert error: " ++ msg])
          | .ok _ => ([RemoteCall.insertTodoLabels todoLabelsData], ([] : List String))
        else ([], [])
      | _ => ([], [])
    let refreshed := fetchTodos (resetForm s) env.fetchRes
    { ret := ()
      state := refreshed.state
      calls := [c1] ++ joined.1 ++ refreshed.calls
      alerts := refreshed.alerts
      logs := joined.2 ++ refreshed.logs }

/-- Operation `saveTodo`: the three validation guards, then the edit or create
branch according to the truthiness of `editingId`. -/
def saveTodo (s : TodoListState) (env : SaveEnv) : OpResult Unit :=
  if jsTrim s.title = "" then
    { ret := (), state := s, calls := [], alerts := ["Title is required"], logs := [] }
  else if s.assigneeId = "" then
    { ret := (), state := s, calls := [], alerts := ["Assignee is required"], logs := [] }
  else if s.selectedLabelIds.length = 0 then
    { ret := (), state := s, calls := [], alerts := ["At least one label is required"],
      logs := [] }
  else
    match s.editingId with
    | some eid => if eid != 0 then saveTodoUpdate s env eid else saveTodoCreate s env
    | none => saveTodoCreate s env

/-- The local patch `toggleTodo` applies on success:
`prev.map((t) => (t.id === id ? { ...t, completed: !completed } : t))`. -/
def togglePatch (id : Int) (completed : Bool) (t : Todo) : Todo :=
  if t.id = id then { t with completed := !completed } else t

/-- Operation `toggleTodo(id, completed)`: one remote update setting `completed` to
`!completed` on the row with that identifier; on error only log; on data
patch just the completed flag of the matching local todo. -/
def toggleTodo (s : TodoListState) (id : Int) (completed : Bool)
    (env : Except String (Option (List Todo))) : OpResult Unit :=
  let c := RemoteCall.updateCompleted (!completed) id
  match env with
  | .error msg =>
    { ret := (), state := s, calls := [c], alerts := [], logs := ["Toggle error: " ++ msg] }
  | .ok data =>
    match data with
    | some _ =>
      { ret := ()
        state := { s with todos := s.todos.map (togglePatch id completed) }
        calls := [c]
        alerts := []
        logs := [] }
    | none =>
      { ret := (), state := s, calls := [c], alerts := [], logs := [] }

/-- Operation `deleteTodo(id)`: delete join rows first (outcome discarded), then the
todo row; on todo-row error only log and keep state; on success drop the
identifier from the local list. -/
def deleteTodo (s : TodoListState) (id : Int)
    ( _envJoinDelete : Except String Unit) (envTodoDelete : Except String Unit) :
    OpResult Unit :=
  let c1 := RemoteCall.deleteTodoLabels id
  let c2 := RemoteCall.deleteTodoRow id
  match envTodoDelete with
  | .error msg =>
    { ret := (), state := s, calls := [c1, c2], alerts := [], logs := ["Delete error: " ++ msg] }
  | .ok _ =>
    { ret := ()
      state := { s with todos := s.todos.filter (fun t => t.id != id) }
      calls := [c1, c2]
      alerts := []
      logs := [] }

/-- Number of `labels`-table insert calls in a trace. -/
def countLabelInserts (cs : List RemoteCall) : Nat :=
  (cs.filter (fun c => match c with
    | RemoteCall.insertLabelRow _ => true
    | _ => false)).length

/-- Example user Alice. -/
def exProfileA : Profile := { id := "u1", name := "Alice" }

/-- Example user Bob. -/
def exProfileB : Profile := { id := "u2", name := "Bob" }

/-- Example cached label. -/
def exLabelUrgent : Label := { id := "l1", name := "urgent", created_at := "2024-01-01" }

/-- Example label used for remote-insert responses. -/
def exLabelHome : Label := { id := "l9", name := "Home", created_at := "2024-01-02" }

/-- Example todo assigned to Alice. -/
def exTodo1 : Todo :=
  { id := 1, title := "Buy milk", description := none, due_date := none,
    completed := false, assignee_id := "u1", assignee := none,
    labels := some [{ id := "l1", name := "urgent" }] }

/-- Example todo assigned to Bob. -/
def exTodo2 : Todo :=
  { id := 2, title := "Walk dog", description := some "evening", due_date := none,
    completed := true, assignee_id := "u2", assignee := none, labels := some [] }

/-- Example component state with two todos, two users, one label and a
valid form. -/
def exState : TodoListState :=
  { todos := [exTodo1, exTodo2], users := [exProfileA, exProfileB],
    labels := [exLabelUrgent], title := "Buy milk", description := "",
    dueDate := "", assigneeId := "u1", selectedLabelIds := ["l1"],
    newLabelName := "", editingId := none, filterUserId := "", filterLabelIds := [] }

/-- Example state while editing todo 1 with no assignee selected yet. -/
def exStateEdit : TodoListState := { exState with editingId := some 1, assigneeId := "" }

/-- Example state whose title trims to the empty string. -/
def exStateBlankTitle : TodoListState := { exState with title := "   " }

/-- Example state with an empty local label cache. -/
def exStateNoLabels : TodoListState := { exState with labels := [] }

/-- Example state in edit mode for todo 1 with changed form fields. -/
def exStateC6 : TodoListState :=
  { exState with title := "Buy oat milk", description := "d", editingId := some 1 }

/-- Example save environment where every remote call succeeds and the
final refresh returns an empty todo list. -/
def exSaveEnvOk : SaveEnv :=
  { updateTodoRes := .ok (), insertTodoRes := .ok none, joinDeleteRes := .ok (),
    joinInsertRes := .ok (), fetchRes := .ok (some []) }

/-- C1: when the trimmed title is empty, or no assignee is selected, or no
label is selected, `saveTodo` returns before issuing any remote call,
shows an alert, and leaves the whole component state (in particular the
todo, user, and label lists) unchanged. -/
theorem saveTodo_validation_aborts (s : TodoListState) (env : SaveEnv)
    (h : jsTrim s.title = "" ∨ s.assigneeId = "" ∨ s.selectedLabelIds = []) :
    (saveTodo s env).calls = [] ∧ (saveTodo s env).alerts ≠ [] ∧
      (saveTodo s env).state = s ∧ (saveTodo s env).state.todos = s.todos ∧
      (saveTodo s env).state.users = s.users ∧ (saveTodo s env).state.labels = s.labels := by
  by_cases h1 : jsTrim s.title = ""
  · simp [saveTodo, h1]
  · by_cases h2 : s.assigneeId = ""
    · simp [saveTodo, h1, h2]
    · have h3 : s.selectedLabelIds = [] := by tauto
      simp [saveTodo, h1, h2, h3]

/-- Witness for C1 at a state whose title trims to the empty string. -/
theorem saveTodo_validation_aborts_witness :
    (saveTodo exStateBlankTitle exSaveEnvOk).calls = [] ∧
      (saveTodo exStateBlankTitle exSaveEnvOk).alerts ≠ [] ∧
      (saveTodo exStateBlankTitle exSaveEnvOk).state = exStateBlankTitle := by
  have h := saveTodo_validation_aborts exStateBlankTitle exSaveEnvOk (Or.inl (by decide))
  exact ⟨h.1, h.2.1, h.2.2.1⟩

/-- C2: a todo is in `filteredTodos` exactly when it is in the local list,
its assignee matches the (possibly unset) assignee filter, and its label
set contains every selected filter label (AND semantics); with no label
filters the view is exactly the assignee-matching subset.  The function is
a pure derivation: it takes no remote environment and returns only a list. -/
theorem filteredTodos_spec (s : TodoListState) (t : Todo) :
    (t ∈ filteredTodos s ↔
      t ∈ s.todos ∧ (s.filterUserId = "" ∨ t.assignee_id = s.filterUserId) ∧
        ∀ fid ∈ s.filterLabelIds, ∃ l ∈ t.labels.getD [], l.id = fid) ∧
    (s.filterLabelIds = [] →
      filteredTodos s =
        s.todos.filter (fun td => s.filterUserId == "" || td.assignee_id == s.filterUserId)) := by
  constructor
  · simp only [filteredTodos, List.mem_filter, Bool.and_eq_true, Bool.or_eq_true,
      beq_iff_eq, List.isEmpty_iff, List.all_eq_true, List.any_eq_true,
      decide_eq_true_eq]
    refine and_congr_right fun _ => and_congr_right fun _ => ?_
    constructor
    · rintro (h | h)
      · intro fid hfid
        rw [h] at hfid
        cases hfid
      · exact h
    · exact Or.inr
  · intro h
    simp [filteredTodos, h]

/-- Witness for C2: with no label filters the view is the assignee subset. -/
theorem filteredTodos_spec_witness :
    filteredTodos exState =
      exState.todos.filter
        (fun td => exState.filterUserId == "" || td.assignee_id == exState.filterUserId) :=
  (filteredTodos_spec exState exTodo1).2 rfl

/-- C7: `deleteTodo` always issues exactly the join-row delete followed by
the todo-row delete; its result does not depend on the join-row delete's
outcome and it never alerts; on todo-row success the identifier is removed
from the local list, and on todo-row failure the state is unchanged. -/
theorem deleteTodo_spec (s : TodoListState) (id : Int)
    (ej et : Except String Unit) :
    (deleteTodo s id ej et).calls =
        [RemoteCall.deleteTodoLabels id, RemoteCall.deleteTodoRow id] ∧
      (∀ ej2 : Except String Unit, deleteTodo s id ej2 et = deleteTodo s id ej et) ∧
      (deleteTodo s id ej et).alerts = [] ∧
      (et = .ok () →
        (deleteTodo s id ej et).state =
          { s with todos := s.todos.filter (fun t => t.id != id) }) ∧
      (∀ msg, et = .error msg → (deleteTodo s id ej et).state = s) := by
  cases et with
  | error msg => simp [deleteTodo]
  | ok u => cases u; simp [deleteTodo]

/-- Witness for C7: successful delete of todo 1 filters it out locally. -/
theorem deleteTodo_spec_witness :
    (deleteTodo exState 1 (.ok ()) (.ok ())).state =
      { exState with todos := exState.todos.filter (fun t => t.id != 1) } :=
  (deleteTodo_spec exState 1 (.ok ()) (.ok ())).2.2.2.1 rfl

/-- C9: any user in the local user list whose identifier equals the form's
currently selected assignee is in `availableUsers`, regardless of existing
assignments. -/
theorem availableUsers_includes_selected (s : TodoListState) (u : Profile)
    (hu : u ∈ s.users) (hid : u.id = s.assigneeId) : u ∈ availableUsers s := by
  refine List.mem_filter.mpr ⟨hu, ?_⟩
  simp [hid]

/-- Witness for C9: Alice is selected in the form and is assigned to todo 1,
which is not being edited, yet she is available. -/
theorem availableUsers_includes_selected_witness :
    exProfileA ∈ availableUsers exState :=
  availableUsers_includes_selected exState exProfileA (by decide) rfl

/-- C10: `createNewLabel` on a name that trims to the empty string returns
no identifier, issues no remote call, shows no alert, and leaves the state
(in particular the label cache) unchanged. -/
theorem createNewLabel_empty_name (s : TodoListState) (name : String)
    (env : Except String Label) (h : jsTrim name = "") :
    createNewLabel s name env =
      { ret := none, state := s, calls := [], alerts := [], logs := [] } := by
  simp [createNewLabel, h]

/-- Witness for C10 on a whitespace-only name. -/
theorem createNewLabel_empty_name_witness :
    createNewLabel exState "   " (.ok exLabelHome) =
      { ret := none, state := exState, calls := [], alerts := [], logs := [] } :=
  createNewLabel_empty_name exState "   " (.ok exLabelHome) (by decide)

/-- C8 counterexample: in `exState` nothing is being edited and Alice is
assigned to todo 1, so the spec's description ("exactly the users not
assigned to any todo other than the one being edited") yields no available
user, yet `availableUsers` returns Alice because her identifier equals the
form's selected assignee. -/
theorem availableUsers_ne_spec_counterexample :
    availableUsers exState = [exProfileA] ∧
      specAvailableAssignees exState = [] ∧
      exState.editingId = none ∧
      (∃ t ∈ exState.todos, t.assignee_id = exProfileA.id) := by
  refine ⟨rfl, rfl, rfl, exTodo1, by decide, rfl⟩

/-- C8 amended: `availableUsers` returns exactly the users who are not
assigned to any todo other than the one being edited, **or** whose
identifier equals the form's currently selected assignee; it is a pure
derivation over local state. -/
theorem availableUsers_mem (s : TodoListState) (u : Profile) :
    u ∈ availableUsers s ↔
      u ∈ s.users ∧
        ((∀ t ∈ s.todos,
            (!(idTruthy s.editingId) || s.editingId != some t.id) = true →
              t.assignee_id ≠ u.id) ∨
          u.id = s.assigneeId) := by
  have key : ∀ x : String, (assignedIds s).contains x = true ↔
      ∃ t ∈ s.todos,
        (!(idTruthy s.editingId) || s.editingId != some t.id) = true ∧
          t.assignee_id = x := by
    intro x
    simp [assignedIds, List.contains, List.elem_iff, List.mem_map, List.mem_filter,
      and_assoc]
  constructor
  · intro h
    obtain ⟨hu, hb⟩ := List.mem_filter.mp h
    rw [Bool.or_eq_true] at hb
    rcases hb with hb | hb
    · refine ⟨hu, Or.inl ?_⟩
      intro t ht hc he
      have hmem : (assignedIds s).contains u.id = true := (key u.id).mpr ⟨t, ht, hc, he⟩
      rw [Bool.not_eq_true'] at hb
      rw [hb] at hmem
      cases hmem
    · exact ⟨hu, Or.inr (beq_iff_eq.mp hb)⟩
  · rintro ⟨hu, hcase⟩
    refine List.mem_filter.mpr ⟨hu, ?_⟩
    rw [Bool.or_eq_true]
    rcases hcase with hc | hc
    · left
      rw [Bool.not_eq_true']
      cases hcon : (assignedIds s).contains u.id with
      | false => rfl
      | true =>
        obtain ⟨t, ht, hcnd, he⟩ := (key u.id).mp hcon
        exact absurd he (hc t ht hcnd)
    · exact Or.inr (beq_iff_eq.mpr hc)

/-- Witness for C8 amended: while editing todo 1 (the only todo Alice
holds), Alice is available via the exclusivity clause. -/
theorem availableUsers_mem_witness : exProfileA ∈ availableUsers exStateEdit :=
  (availableUsers_mem exStateEdit exProfileA).mpr ⟨by decide, Or.inl (by decide)⟩

/-- C5: on a successful toggle, the only remote call is the one completed
update targeting the given identifier, and locally only the matching
todo's completed flag changes: all its other fields, every other todo, the
list length and order, and the user and label collections are unchanged,
with no alert and no refetch. -/
theorem toggleTodo_frame (s : TodoListState) (id : Int) (c : Bool) (rows : List Todo) :
    (toggleTodo s id c (.ok (some rows))).calls = [RemoteCall.updateCompleted (!c) id] ∧
      (toggleTodo s id c (.ok (some rows))).state.todos = s.todos.map (togglePatch id c) ∧
      (∀ t : Todo, t.id ≠ id → togglePatch id c t = t) ∧
      (∀ t : Todo, t.id = id → togglePatch id c t = { t with completed := !c }) ∧
      (∀ t : Todo, (togglePatch id c t).id = t.id ∧ (togglePatch id c t).title = t.title ∧
        (togglePatch id c t).description = t.description ∧
        (togglePatch id c t).due_date = t.due_date ∧
        (togglePatch id c t).assignee_id = t.assignee_id ∧
        (togglePatch id c t).assignee = t.assignee ∧
        (togglePatch id c t).labels = t.labels) ∧
      (toggleTodo s id c (.ok (some rows))).state.todos.length = s.todos.length ∧
      (toggleTodo s id c (.ok (some rows))).state.users = s.users ∧
      (toggleTodo s id c (.ok (some rows))).state.labels = s.labels ∧
      (toggleTodo s id c (.ok (some rows))).alerts = [] := by
  refine ⟨rfl, rfl, ?_, ?_, ?_, by simp [toggleTodo], rfl, rfl, rfl⟩
  · intro t ht
    simp [togglePatch, ht]
  · intro t ht
    simp [togglePatch, ht]
  · intro t
    by_cases ht : t.id = id <;> simp [togglePatch, ht]

/-- Witness for C5 at todo 1 of the example state. -/
theorem toggleTodo_frame_witness :
    (toggleTodo exState 1 false (.ok (some []))).state.todos =
      exState.todos.map (togglePatch 1 false) :=
  (toggleTodo_frame exState 1 false []).2.1

/-- C4: toggling a todo twice (passing the current flag each time, both
remote updates succeeding) restores the todo list, and the two runs issue
exactly two remote calls, both completed-flag updates. -/
theorem toggleTodo_twice (s : TodoListState) (tid : Int) (c : Bool)
    (rows1 rows2 : List Todo)
    (hall : ∀ t ∈ s.todos, t.id = tid → t.completed = c) :
    (toggleTodo (toggleTodo s tid c (.ok (some rows1))).state tid (!c)
        (.ok (some rows2))).state.todos = s.todos ∧
      (toggleTodo s tid c (.ok (some rows1))).calls ++
          (toggleTodo (toggleTodo s tid c (.ok (some rows1))).state tid (!c)
            (.ok (some rows2))).calls =
        [RemoteCall.updateCompleted (!c) tid, RemoteCall.updateCompleted c tid] ∧
      ((toggleTodo s tid c (.ok (some rows1))).calls ++
          (toggleTodo (toggleTodo s tid c (.ok (some rows1))).state tid (!c)
            (.ok (some rows2))).calls).length = 2 := by
  refine ⟨?_, by simp [toggleTodo], by simp [toggleTodo]⟩
  show (s.todos.map (togglePatch tid c)).map (togglePatch tid (!c)) = s.todos
  rw [List.map_map]
  have hpt : ∀ t ∈ s.todos, (togglePatch tid (!c) ∘ togglePatch tid c) t = t := by
    intro t ht
    by_cases hid : t.id = tid
    · have hc : t.completed = c := hall t ht hid
      cases t with
      | mk i ti d dd comp aid asg lbs =>
        simp only at hid hc
        simp [togglePatch, Function.comp, hid, hc, Bool.not_not]
    · simp [Function.comp, togglePatch, hid]
  calc s.todos.map (togglePatch tid (!c) ∘ togglePatch tid c)
      = s.todos.map (fun t => t) := List.map_congr_left hpt
    _ = s.todos := List.map_id' s.todos

/-- Witness for C4: double toggle of todo 1 in the example state. -/
theorem toggleTodo_twice_witness :
    (toggleTodo (toggleTodo exState 1 false (.ok (some []))).state 1 (!false)
        (.ok (some []))).state.todos = exState.todos :=
  (toggleTodo_twice exState 1 false [] [] (by decide)).1

/-- Lemma: `fetchTodos` never alerts. -/
theorem fetchTodos_alerts (s : TodoListState) (env : Except String (Option (List RawTodo))) :
    (fetchTodos s env).alerts = [] := by
  cases env <;> rfl

/-- Lemma: `fetchTodos` issues exactly one select call. -/
theorem fetchTodos_calls (s : TodoListState) (env : Except String (Option (List RawTodo))) :
    (fetchTodos s env).calls = [RemoteCall.selectTodosJoined] := by
  cases env <;> rfl

/-- Lemma: `fetchTodos` changes no state field other than `todos`. -/
theorem fetchTodos_form (s : TodoListState) (env : Except String (Option (List RawTodo))) :
    (fetchTodos s env).state.title = s.title ∧
      (fetchTodos s env).state.assigneeId = s.assigneeId ∧
      (fetchTodos s env).state.selectedLabelIds = s.selectedLabelIds ∧
      (fetchTodos s env).state.editingId = s.editingId := by
  cases env <;> exact ⟨rfl, rfl, rfl, rfl⟩

/-- On a successful response `fetchTodos` replaces the local todo list
with the flattened rows. -/
theorem fetchTodos_ok_todos (s : TodoListState) (d : Option (List RawTodo)) :
    (fetchTodos s (.ok d)).state.todos =
      (d.map (fun rows => rows.map transformTodo)).getD [] := rfl

/-- A successful edit-mode `saveTodoUpdate` always ends in the refresh:
its state is the refresh state over the cleared form, its calls are the
three mutations followed by the refresh select, and its alerts are the
refresh alerts — all independent of the join-row outcomes. -/
theorem saveTodoUpdate_ok (s : TodoListState) (env : SaveEnv) (eid : Int)
    (hup : env.updateTodoRes = .ok ())
    (hpos : s.selectedLabelIds.length > 0) :
    (saveTodoUpdate s env eid).state = (fetchTodos (resetForm s) env.fetchRes).state ∧
      (saveTodoUpdate s env eid).calls =
        [RemoteCall.updateTodoRow s.title s.description s.dueDate s.assigneeId eid,
          RemoteCall.deleteTodoLabels eid,
          RemoteCall.insertTodoLabels
            (s.selectedLabelIds.map (fun labelId => (eid, labelId)))] ++
          (fetchTodos (resetForm s) env.fetchRes).calls ∧
      (saveTodoUpdate s env eid).alerts = (fetchTodos (resetForm s) env.fetchRes).alerts ∧
      (∀ msg, env.joinInsertRes = .error msg →
        ("Labels update error: " ++ msg) ∈ (saveTodoUpdate s env eid).logs) := by
  obtain ⟨ur, ir, jdr, jir, fr⟩ := env
  simp only at hup
  subst hup
  cases jir with
  | error msg =>
    refine ⟨by simp [saveTodoUpdate, hpos], by simp [saveTodoUpdate, hpos],
      by simp [saveTodoUpdate, hpos], ?_⟩
    intro m hm
    simp only [Except.error.injEq] at hm
    subst hm
    simp [saveTodoUpdate, hpos]
  | ok u =>
    cases u
    refine ⟨by simp [saveTodoUpdate, hpos], by simp [saveTodoUpdate, hpos],
      by simp [saveTodoUpdate, hpos], ?_⟩
    intro m hm
    cases hm

/-- C6 counterexample, two parts.  First: in `exStateC6` the edit target
(todo 1) is present locally, every precondition holds and every remote
call succeeds, yet after `saveTodo` the local list is NOT the original
list with todo 1 patched in place — it is whatever the final
authoritative refetch returned (here the empty list), so the matching
local todo is gone rather than updated in place.  Second: when the
join-row delete fails, the run produces no log line and no alert at all —
the delete's outcome is discarded without being checked, so a join-row
delete failure is not logged (only a join-row insert failure is). -/
theorem saveTodo_update_not_in_place_counterexample :
    (saveTodo exStateC6 exSaveEnvOk).state.todos = [] ∧
      (∃ t ∈ exStateC6.todos, t.id = 1) ∧
      exStateC6.editingId = some 1 ∧
      exSaveEnvOk.updateTodoRes = .ok () ∧
      (¬ ∃ t ∈ (saveTodo exStateC6 exSaveEnvOk).state.todos, t.id = 1) ∧
      (saveTodo exStateC6 { exSaveEnvOk with joinDeleteRes := .error "db down" }).logs
        = [] ∧
      (saveTodo exStateC6 { exSaveEnvOk with joinDeleteRes := .error "db down" }).alerts
        = [] := by
  refine ⟨rfl, ⟨exTodo1, by decide, rfl⟩, rfl, rfl, ?_, rfl, rfl⟩
  rintro ⟨t, ht, -⟩
  have h : (saveTodo exStateC6 exSaveEnvOk).state.todos = [] := rfl
  rw [h] at ht
  cases ht

/-- C6 amended: for a valid edit-mode `saveTodo` whose todo-row update
succeeds, the remote calls are, in order: the todo-row update, the delete
of all join rows for the edit target, the insert of fresh join rows for
exactly the currently selected labels (full replace), and the refresh
select; a join-row insert failure is only logged, while the join-row
delete's outcome is ignored entirely (the whole run is the same function
of the other outcomes, so a delete failure is neither checked, logged,
nor surfaced); neither join-row failure changes the state, the calls, or
the alerts, and no error is surfaced to the user; and the form is
cleared while the local todo list is replaced by the refetched
(flattened) response rather than patched in place. -/
theorem saveTodo_update_success (s : TodoListState) (env : SaveEnv) (eid : Int)
    (heid : s.editingId = some eid) (h0 : eid ≠ 0)
    (h1 : jsTrim s.title ≠ "") (h2 : s.assigneeId ≠ "")
    (h3 : s.selectedLabelIds ≠ [])
    (hup : env.updateTodoRes = .ok ()) :
    (saveTodo s env).calls =
        [RemoteCall.updateTodoRow s.title s.description s.dueDate s.assigneeId eid,
          RemoteCall.deleteTodoLabels eid,
          RemoteCall.insertTodoLabels
            (s.selectedLabelIds.map (fun labelId => (eid, labelId))),
          RemoteCall.selectTodosJoined] ∧
      (saveTodo s env).alerts = [] ∧
      (∀ msg, env.joinInsertRes = .error msg →
        ("Labels update error: " ++ msg) ∈ (saveTodo s env).logs) ∧
      (∀ jd : Except String Unit,
        saveTodo s { env with joinDeleteRes := jd } = saveTodo s env) ∧
      (∀ jd ji : Except String Unit,
        (saveTodo s { env with joinDeleteRes := jd, joinInsertRes := ji }).state =
            (saveTodo s env).state ∧
          (saveTodo s { env with joinDeleteRes := jd, joinInsertRes := ji }).calls =
            (saveTodo s env).calls ∧
          (saveTodo s { env with joinDeleteRes := jd, joinInsertRes := ji }).alerts =
            (saveTodo s env).alerts) ∧
      (saveTodo s env).state.title = "" ∧
      (saveTodo s env).state.assigneeId = "" ∧
      (saveTodo s env).state.selectedLabelIds = [] ∧
      (saveTodo s env).state.editingId = none ∧
      (∀ d, env.fetchRes = .ok d →
        (saveTodo s env).state.todos =
          (d.map (fun rows => rows.map transformTodo)).getD []) := by
  have hlen : ¬ s.selectedLabelIds.length = 0 := by
    simpa [List.length_eq_zero] using h3
  have hpos : s.selectedLabelIds.length > 0 := Nat.pos_of_ne_zero hlen
  have hsave : ∀ e : SaveEnv, saveTodo s e = saveTodoUpdate s e eid := by
    intro e
    simp [saveTodo, h1, h2, hlen, heid, h0]
  have hmain := saveTodoUpdate_ok s env eid hup hpos
  have hform := fetchTodos_form (resetForm s) env.fetchRes
  refine ⟨?_, ?_, ?_, ?_, ?_, ?_, ?_, ?_, ?_, ?_⟩
  · rw [hsave, hmain.2.1, fetchTodos_calls]
    rfl
  · rw [hsave, hmain.2.2.1, fetchTodos_alerts]
  · intro msg hmsg
    rw [hsave]
    exact hmain.2.2.2 msg hmsg
  · intro jd
    rw [hsave, hsave]
    rfl
  · intro jd ji
    have hother := saveTodoUpdate_ok s { env with joinDeleteRes := jd, joinInsertRes := ji }
      eid hup hpos
    rw [hsave, hsave]
    exact ⟨hother.1.trans hmain.1.symm,
      hother.2.1.trans hmain.2.1.symm,
      hother.2.2.1.trans hmain.2.2.1.symm⟩
  · rw [hsave, hmain.1, hform.1, resetForm]
  · rw [hsave, hmain.1, hform.2.1, resetForm]
  · rw [hsave, hmain.1, hform.2.2.1, resetForm]
  · rw [hsave, hmain.1, hform.2.2.2, resetForm]
  · intro d hd
    rw [hsave, hmain.1, hd, fetchTodos_ok_todos]

/-- Witness for C6 amended: the concrete calls issued by the successful
edit-mode save of the counterexample state. -/
theorem saveTodo_update_success_witness :
    (saveTodo exStateC6 exSaveEnvOk).calls =
      [RemoteCall.updateTodoRow exStateC6.title exStateC6.description
        exStateC6.dueDate exStateC6.assigneeId 1,
        RemoteCall.deleteTodoLabels 1,
        RemoteCall.insertTodoLabels
          (exStateC6.selectedLabelIds.map (fun labelId => (1, labelId))),
        RemoteCall.selectTodosJoined] :=
  (saveTodo_update_success exStateC6 exSaveEnvOk 1 rfl (by decide) (by decide)
    (by decide) (by decide) rfl).1

/-- The merge sort used by `createNewLabel` produces a list sorted by
name (ascending) in the pairwise sense. -/
theorem mergeSort_labels_pairwise (ls : List Label) :
    List.Pairwise (fun a b : Label => a.name ≤ b.name)
      (ls.mergeSort (fun a b => a.name ≤ b.name)) := by
  have h := @List.sorted_mergeSort Label (fun a b => decide (a.name ≤ b.name))
    (fun a b c hab hbc =>
      decide_eq_true (le_trans (of_decide_eq_true hab) (of_decide_eq_true hbc)))
    (fun a b => by
      rcases le_total a.name b.name with h | h <;> simp [h])
    ls
  exact h.imp (fun hd => of_decide_eq_true hd)

/-- C3: calling `createNewLabel` twice with names that differ only in
letter case (both trimming to a nonempty string, the first insert — if one
happens — echoing the trimmed name) returns the same identifier both
times and performs at most one remote label insert; if a case-insensitive
match exists in the local cache, the existing identifier is returned with
no remote call and an unchanged cache, otherwise the label is inserted,
lands in the cache, and the cache is sorted by name ascending. -/
theorem createNewLabel_case_insensitive (s : TodoListState) (n1 n2 : String)
    (l : Label) (env2 : Except String Label)
    (hn1 : jsTrim n1 ≠ "") (hn2 : jsTrim n2 ≠ "")
    (hcase : jsToLower (jsTrim n1) = jsToLower (jsTrim n2))
    (hname : l.name = jsTrim n1) :
    (createNewLabel s n1 (.ok l)).ret.isSome = true ∧
      (createNewLabel (createNewLabel s n1 (.ok l)).state n2 env2).ret =
        (createNewLabel s n1 (.ok l)).ret ∧
      countLabelInserts ((createNewLabel s n1 (.ok l)).calls ++
        (createNewLabel (createNewLabel s n1 (.ok l)).state n2 env2).calls) ≤ 1 ∧
      (createNewLabel (createNewLabel s n1 (.ok l)).state n2 env2).calls = [] ∧
      (∀ e, s.labels.find? (fun lab => jsToLower lab.name == jsToLower (jsTrim n1)) = some e →
        (createNewLabel s n1 (.ok l)).state = s ∧
          (createNewLabel s n1 (.ok l)).calls = [] ∧
          (createNewLabel s n1 (.ok l)).ret = some e.id) ∧
      (s.labels.find? (fun lab => jsToLower lab.name == jsToLower (jsTrim n1)) = none →
        (createNewLabel s n1 (.ok l)).calls = [RemoteCall.insertLabelRow (jsTrim n1)] ∧
          l ∈ (createNewLabel s n1 (.ok l)).state.labels ∧
          List.Pairwise (fun a b : Label => a.name ≤ b.name)
            (createNewLabel s n1 (.ok l)).state.labels ∧
          (createNewLabel s n1 (.ok l)).ret = some l.id) := by
  have hpred : (fun lab : Label => jsToLower lab.name == jsToLower (jsTrim n2)) =
      (fun lab : Label => jsToLower lab.name == jsToLower (jsTrim n1)) := by
    funext lab
    rw [hcase]
  cases hfind : s.labels.find? (fun lab => jsToLower lab.name == jsToLower (jsTrim n1)) with
  | some e =>
    have hr1 : createNewLabel s n1 (.ok l) =
        { ret := some e.id, state := s, calls := [], alerts := [], logs := [] } := by
      simp [createNewLabel, hn1, hfind]
    have hfind2 : s.labels.find?
        (fun lab => jsToLower lab.name == jsToLower (jsTrim n2)) = some e := by
      rw [hpred, hfind]
    have hr2 : createNewLabel s n2 env2 =
        { ret := some e.id, state := s, calls := [], alerts := [], logs := [] } := by
      simp [createNewLabel, hn2, hfind2]
    rw [hr1]
    refine ⟨rfl, ?_, ?_, ?_, ?_, ?_⟩
    · simp only
      rw [hr2]
    · simp only
      rw [hr2]
      simp [countLabelInserts]
    · simp only
      rw [hr2]
    · intro e2 he2
      cases he2
      exact ⟨rfl, rfl, rfl⟩
    · intro hnone
      cases hnone
  | none =>
    have hr1 : createNewLabel s n1 (.ok l) =
        { ret := some l.id
          state := { s with
            labels := (s.labels ++ [l]).mergeSort (fun a b => a.name ≤ b.name) }
          calls := [RemoteCall.insertLabelRow (jsTrim n1)]
          alerts := []
          logs := [] } := by
      simp [createNewLabel, hn1, hfind]
    have hperm := List.mergeSort_perm (s.labels ++ [l])
      (fun a b : Label => a.name ≤ b.name)
    have hmem : l ∈ (s.labels ++ [l]).mergeSort (fun a b : Label => a.name ≤ b.name) :=
      hperm.mem_iff.mpr (by simp)
    have hpl : (jsToLower l.name == jsToLower (jsTrim n2)) = true := by
      rw [hname, hcase]
      simp
    have hsome : (((s.labels ++ [l]).mergeSort (fun a b : Label => a.name ≤ b.name)).find?
        (fun lab => jsToLower lab.name == jsToLower (jsTrim n2))).isSome = true :=
      List.find?_isSome.mpr ⟨l, hmem, hpl⟩
    obtain ⟨x, hx⟩ := Option.isSome_iff_exists.mp hsome
    have hpx := List.find?_some hx
    have hxmem : x ∈ s.labels ++ [l] := hperm.mem_iff.mp (List.mem_of_find?_eq_some hx)
    have hxl : x = l := by
      rcases List.mem_append.mp hxmem with hxs | hxl
      · exfalso
        have hnot := List.find?_eq_none.mp hfind x hxs
        rw [← hcase] at hpx
        exact hnot hpx
      · exact List.mem_singleton.mp hxl
    rw [hxl] at hx
    have hr2 : createNewLabel (createNewLabel s n1 (.ok l)).state n2 env2 =
        { ret := some l.id, state := (createNewLabel s n1 (.ok l)).state,
          calls := [], alerts := [], logs := [] } := by
      rw [hr1]
      simp only [createNewLabel, hx]
      rw [if_neg hn2]
    refine ⟨?_, ?_, ?_, ?_, ?_, ?_⟩
    · rw [hr1]
      rfl
    · rw [hr2, hr1]
    · rw [hr2, hr1]
      simp [countLabelInserts]
    · rw [hr2]
    · intro e2 he2
      cases he2
    · intro hnone
      rw [hr1]
      exact ⟨rfl, hmem, mergeSort_labels_pairwise (s.labels ++ [l]), rfl⟩

/-- Witness for C3 on an empty cache: creating "Home" then "hOME" returns
the same identifier. -/
theorem createNewLabel_case_insensitive_witness :
    (createNewLabel (createNewLabel exStateNoLabels "Home" (.ok exLabelHome)).state
        "hOME" (.ok exLabelHome)).ret =
      (createNewLabel exStateNoLabels "Home" (.ok exLabelHome)).ret :=
  (createNewLabel_case_insensitive exStateNoLabels "Home" "hOME" exLabelHome
    (.ok exLabelHome) (by decide) (by decide) (by decide) rfl).2.1

end TodoApp
